import Mathlib

/-!
Shallow embedding of `src/hass_mqtt/sensor.rs` from govee2mqtt: the
capability-to-entity adapter layer (sensor entities for Home Assistant
MQTT discovery).  The embedding keeps the source's structure: a JSON
value model with `pointer`/`as_f64` (serde_json semantics), the three
entity kinds (`GlobalFixedDiagnostic`, `CapabilitySensor`,
`DeviceStatusDiagnostic`), their constructors, the imperial-variant
derivation `into_temperature_farenheit`, and the `notify_state` refresh
logic.  Machine floats are modelled as rationals; collaborators that are
not part of the shown source (unit quirks, topic helpers, the clock and
poll interval) are modelled from the specification and marked as such.
-/

/-- JSON documents, modelling `serde_json::Value`.  Numbers are modelled
as rationals (the source holds `f64`). -/
inductive JsonValue where
  | null
  | bool (b : Bool)
  | num (q : ℚ)
  | str (s : String)
  | arr (elems : List JsonValue)
  | obj (fields : List (String × JsonValue))
deriving Repr

/-- Decimal digits to a number, most significant first. -/
def digitsToNat : List Char → Nat → Nat
  | [], acc => acc
  | c :: rest, acc => digitsToNat rest (acc * 10 + (c.toNat - '0'.toNat))

/-- `serde_json`'s `parse_index` for JSON-pointer array tokens: rejects a
leading `+` and a superfluous leading zero, otherwise parses a decimal
index (implemented on the character list so the kernel can evaluate
it). -/
def parseIndex (s : String) : Option Nat :=
  match s.data with
  | [] => none
  | '+' :: _ => none
  | '0' :: _ :: _ => none
  | cs => if cs.all (·.isDigit) then some (digitsToNat cs 0) else none

/-- Split a character list at a separator, `String::split` style: the
empty list yields one empty chunk, separators delimit (possibly empty)
chunks. -/
def splitOnChar (sep : Char) : List Char → List (List Char)
  | [] => [[]]
  | c :: rest =>
    match splitOnChar sep rest with
    | [] => [[]]
    | t :: ts => if c = sep then [] :: t :: ts else (c :: t) :: ts

/-- Leftmost non-overlapping replacement of `~1` by `/`
(`str::replace("~1", "/")` on a pointer token). -/
def unescapeTilde1 : List Char → List Char
  | '~' :: '1' :: rest => '/' :: unescapeTilde1 rest
  | c :: rest => c :: unescapeTilde1 rest
  | [] => []

/-- Leftmost non-overlapping replacement of `~0` by `~`
(`str::replace("~0", "~")` on a pointer token). -/
def unescapeTilde0 : List Char → List Char
  | '~' :: '0' :: rest => '~' :: unescapeTilde0 rest
  | c :: rest => c :: unescapeTilde0 rest
  | [] => []

/-- Resolve one pointer token per step, as `serde_json::Value::pointer`
does after splitting: object lookup by key (first match), array lookup by
parsed index, anything else fails. -/
def JsonValue.pointerStep : List String → JsonValue → Option JsonValue
  | [], j => some j
  | t :: ts, .obj fields => (fields.lookup t).bind (JsonValue.pointerStep ts)
  | t :: ts, .arr elems =>
      ((parseIndex t).bind (fun i => elems.get? i)).bind (JsonValue.pointerStep ts)
  | _ :: _, _ => none

/-- `serde_json::Value::pointer` (RFC 6901): empty pointer returns the
whole document, pointers must start with `/`, each `/`-separated token
unescapes `~1` to `/` and then `~0` to `~` (splitting and unescaping are
implemented on the character list so the kernel can evaluate them). -/
def JsonValue.pointer (j : JsonValue) (p : String) : Option JsonValue :=
  match p.data with
  | [] => some j
  | '/' :: rest =>
      JsonValue.pointerStep
        ((splitOnChar '/' rest).map fun t =>
          String.mk (unescapeTilde0 (unescapeTilde1 t))) j
  | _ => none

/-- `serde_json::Value::as_f64`: numeric payload of a number, `none`
otherwise. -/
def JsonValue.as_f64 : JsonValue → Option ℚ
  | .num q => some q
  | _ => none

/-- Render a string as a JSON string literal with basic escaping
(modelling `serde_json`'s `Display`; only the escapes the adapter layer
could ever feed back are handled, the exact text is never inspected by
the adapter). -/
def renderJsonString (s : String) : String :=
  "\"" ++ String.join (s.data.map fun c =>
    if c = '"' then "\\\"" else if c = '\\' then "\\\\" else String.mk [c]) ++ "\""

mutual
/-- Compact rendering of a JSON document, modelling
`serde_json::Value::to_string` (used by the fallback branch of
`CapabilitySensor::notify_state`). -/
def JsonValue.toString : JsonValue → String
  | .null => "null"
  | .bool b => if b then "true" else "false"
  | .num q => ToString.toString q
  | .str s => renderJsonString s
  | .arr elems => "[" ++ JsonValue.renderElems elems ++ "]"
  | .obj fields => "\x7b" ++ JsonValue.renderFields fields ++ "\x7d"

def JsonValue.renderElems : List JsonValue → String
  | [] => ""
  | [j] => JsonValue.toString j
  | j :: rest => JsonValue.toString j ++ "," ++ JsonValue.renderElems rest

def JsonValue.renderFields : List (String × JsonValue) → String
  | [] => ""
  | [(k, v)] => renderJsonString k ++ ":" ++ JsonValue.toString v
  | (k, v) :: rest =>
      renderJsonString k ++ ":" ++ JsonValue.toString v ++ "," ++
        JsonValue.renderFields rest
end

/-- Fixed-point rendering of a natural number of hundredths as
`<int>.<2 digits>`. -/
def renderHundredths (n : Nat) : String :=
  ToString.toString (n / 100) ++ "." ++
    (if n % 100 < 10 then "0" else "") ++ ToString.toString (n % 100)

/-- Round a non-negative rational to the nearest integer, halves up:
`⌊h + 1/2⌋` computed on `num`/`den` so the kernel can evaluate it. -/
def roundNearest (h : ℚ) : Nat :=
  (2 * h.num.toNat + h.den) / (2 * h.den)

/-- Rust's `format!("\x7b:.2\x7d", v)`: the value rounded to two decimal
places.  Exact decimal ties (unreachable from binary floats in practice)
round half away from zero in this model. -/
def format2 (q : ℚ) : String :=
  (if q < 0 then "-" else "") ++
    renderHundredths (roundNearest ((if q < 0 then -q else q) * 100))

/-- Modelled from the spec: `crate::temperature::TemperatureUnits`, the
unit system a quirky device reports temperature in (`src/temperature.rs`
is not part of the shown source).  The spec names Celsius (the default)
and Fahrenheit-reporting hardware. -/
inductive TemperatureUnits where
  | Celsius
  | Fahrenheit
deriving Repr, DecidableEq

/-- Modelled from the spec: normalize a raw reading to Celsius according
to the reporting unit (`98.6` under Fahrenheit-reporting normalizes to
`37.0`, per the spec's conversion example). -/
def TemperatureUnits.from_reading_to_celsius : TemperatureUnits → ℚ → ℚ
  | .Celsius, v => v
  | .Fahrenheit, v => (v - 32) * 5 / 9

/-- Modelled from the spec: `crate::temperature::ctof`,
Celsius→Fahrenheit (`37.0` displays as `98.60` in the spec's example). -/
def ctof (c : ℚ) : ℚ := c * 9 / 5 + 32

/-- Modelled from the spec: `crate::service::quirks::HumidityUnits`, the
unit system a quirky device reports humidity in (`src/service/quirks.rs`
is not part of the shown source).  The spec names relative percent (the
default) and absolute-humidity-reporting hardware; the exact
absolute-humidity formula is not given by the spec, so the model uses a
representative linear rescale for that variant. -/
inductive HumidityUnits where
  | RelativePercent
  | AbsoluteHumidity
deriving Repr, DecidableEq

/-- Modelled from the spec: normalize a raw humidity reading to relative
percent; the relative-percent variant passes the reading through. -/
def HumidityUnits.from_reading_to_relative_percent : HumidityUnits → ℚ → ℚ
  | .RelativePercent, v => v
  | .AbsoluteHumidity, v => v / 10

/-- Modelled from the spec: a resolved per-device quirk, carrying the
source unit systems used during conversion (fields named as the source
uses them). -/
structure Quirk where
  platform_temperature_sensor_units : Option TemperatureUnits
  platform_humidity_sensor_units : Option HumidityUnits
deriving Repr

/-- `crate::platform_api::DeviceCapability`, restricted to the two fields
the adapter reads: the instance name and the semi-structured state
document.  (`instance` is a Lean keyword, hence `inst`.) -/
structure DeviceCapability where
  inst : String
  state : JsonValue
deriving Repr

/-- The HTTP-sourced state snapshot of a device: its capability list. -/
structure HttpDeviceState where
  capabilities : List DeviceCapability
deriving Repr

/-- The merged device state, restricted to the last-updated timestamp
read by the status classifier.  Timestamps are rational seconds (chrono
`DateTime` has sub-second precision). -/
structure DeviceState where
  updated : ℚ
deriving Repr

/-- `crate::service::device::Device` as seen through this layer: its id,
its HTTP snapshot, and the results of the external per-device resolution
functions the adapter calls (`resolve_quirk`, `device_state`, the three
`compute_*_device_state` views and the serialized platform metadata,
which the status diagnostic republishes verbatim). -/
structure ServiceDevice where
  id : String
  http_device_state : Option HttpDeviceState
  quirk : Option Quirk
  device_state : Option DeviceState
  iot_state : JsonValue
  lan_state : JsonValue
  http_state : JsonValue
  http_device_info : JsonValue
deriving Repr

/-- Modelled from the spec: `topic_safe_string`, a deterministic map from
free text to an identifier-safe topic segment (the exact sanitization
lives in `src/service/hass.rs`, outside the shown source). -/
def topic_safe_string (s : String) : String :=
  String.mk (s.data.map fun c => if c.isAlphanum then c else '-')

/-- Modelled from the spec: `topic_safe_id`, the identifier-safe form of
a device's id. -/
def topic_safe_id (device : ServiceDevice) : String :=
  topic_safe_string device.id

/-- Modelled from the spec: the shared availability topic every entity
advertises (value irrelevant to this layer's logic). -/
def availability_topic : String := "gv2mqtt/availability"

/-- The `device` field of an entity config: either the bridge itself or a
reference to a real device (`Device::this_service` /
`Device::for_device`). -/
inductive DeviceRef where
  | thisService
  | forDevice (id : String)
deriving Repr, DecidableEq

/-- `EntityConfig` from `src/hass_mqtt/base.rs`, the base discovery
payload shared by every entity kind (the `origin` service-identity
metadata is constant and carries no decision logic, so it is elided). -/
structure EntityConfig where
  availability_topic : String
  name : Option String
  entity_category : Option String
  device : DeviceRef
  unique_id : String
  device_class : Option String
  icon : Option String
deriving Repr, DecidableEq

/-- `SensorConfig`: the base config plus the state topic, optional
display unit and optional attributes topic. -/
structure SensorConfig where
  base : EntityConfig
  state_topic : String
  unit_of_measurement : Option String
  json_attributes_topic : Option String
deriving Repr, DecidableEq

/-- `GlobalFixedDiagnostic`: a constant service-level diagnostic. -/
structure GlobalFixedDiagnostic where
  sensor : SensorConfig
  value : String
deriving Repr, DecidableEq

/-- `GlobalFixedDiagnostic::new`. -/
def GlobalFixedDiagnostic.new (name value : String) : GlobalFixedDiagnostic :=
  let unique_id := "global-" ++ topic_safe_string name
  { sensor :=
      { base :=
          { availability_topic := availability_topic
            name := some name
            entity_category := some "diagnostic"
            device := DeviceRef.thisService
            unique_id := unique_id
            device_class := none
            icon := none }
        state_topic := "gv2mqtt/sensor/" ++ unique_id ++ "/state"
        unit_of_measurement := none
        json_attributes_topic := none }
    value := value }

/-- `CapabilitySensor`: bound to one `(device_id, instance_name)` pair;
the `StateHandle` it also stores is the device-store handle, passed to
`notify_state` explicitly in this embedding. -/
structure CapabilitySensor where
  sensor : SensorConfig
  device_id : String
  instance_name : String
deriving Repr, DecidableEq

/-- `CapabilitySensor::new` (the source's `Result` return never carries
an error: the body is infallible). -/
def CapabilitySensor.new (device : ServiceDevice) (cap : DeviceCapability) :
    CapabilitySensor :=
  let unique_id :=
    "sensor-" ++ topic_safe_id device ++ "-" ++ topic_safe_string cap.inst
  let unit_of_measurement : Option String :=
    if cap.inst = "sensorTemperature" then some "°C"
    else if cap.inst = "sensorHumidity" then some "%"
    else none
  let name :=
    if cap.inst = "sensorTemperature" then "Temperature"
    else if cap.inst = "sensorHumidity" then "Humidity"
    else if cap.inst = "online" then "Connected to Govee Cloud"
    else cap.inst
  { sensor :=
      { base :=
          { availability_topic := availability_topic
            name := some name
            entity_category := some "diagnostic"
            device := DeviceRef.forDevice device.id
            unique_id := unique_id
            device_class := none
            icon := none }
        state_topic := "gv2mqtt/sensor/" ++ unique_id ++ "/state"
        unit_of_measurement := unit_of_measurement
        json_attributes_topic := none }
    device_id := device.id
    instance_name := cap.inst }

/-- `CapabilitySensor::into_temperature_farenheit`: gate on the instance
name, then force the unit to `°F`, append `_F` to `unique_id` and
`state_topic`, and replace the display name. -/
def CapabilitySensor.into_temperature_farenheit (c : CapabilitySensor) :
    Option CapabilitySensor :=
  if c.instance_name ≠ "sensorTemperature" then none
  else
    some
      { c with
        sensor :=
          { c.sensor with
            unit_of_measurement := some "°F"
            base :=
              { c.sensor.base with
                unique_id := c.sensor.base.unique_id ++ "_F"
                name := some "Temperature (imperial)" }
            state_topic := c.sensor.state_topic ++ "_F" } }

/-- `DeviceStatusDiagnostic`: bound to one device id. -/
structure DeviceStatusDiagnostic where
  sensor : SensorConfig
  device_id : String
deriving Repr, DecidableEq

/-- `DeviceStatusDiagnostic::new`. -/
def DeviceStatusDiagnostic.new (device : ServiceDevice) :
    DeviceStatusDiagnostic :=
  let unique_id := "sensor-" ++ topic_safe_id device ++ "-gv2mqtt-status"
  { sensor :=
      { base :=
          { availability_topic := availability_topic
            name := some "Status"
            entity_category := some "diagnostic"
            device := DeviceRef.forDevice device.id
            unique_id := unique_id
            device_class := none
            icon := none }
        state_topic := "gv2mqtt/sensor/" ++ unique_id ++ "/state"
        unit_of_measurement := none
        json_attributes_topic :=
          some ("gv2mqtt/sensor/" ++ unique_id ++ "/attributes") }
    device_id := device.id }

/-- The device store: `StateHandle::device_by_id` as a point-in-time
lookup function. -/
abbrev DeviceStore := String → Option ServiceDevice

/-- Observable outcome of `CapabilitySensor::notify_state`: the
`.expect("device to exist")` panic, a single publish of a value string to
the entity's state topic (whose transport result is then returned), or
the silent no-op `Ok(())` with no transport call. -/
inductive NotifyOutcome where
  | panicked
  | published (topic : String) (value : String)
  | noop
deriving Repr, DecidableEq

/-- The value string computed inside `CapabilitySensor::notify_state`
once the matching capability `cap` was found on `device`, following the
source's `match self.instance_name.as_str()`. -/
def CapabilitySensor.computeValue (c : CapabilitySensor)
    (device : ServiceDevice) (cap : DeviceCapability) : String :=
  if c.instance_name = "sensorTemperature" then
    let units :=
      (device.quirk.bind Quirk.platform_temperature_sensor_units).getD
        TemperatureUnits.Celsius
    match ((cap.state.pointer "/value").bind JsonValue.as_f64).map
        units.from_reading_to_celsius with
    | some v =>
        if c.sensor.unit_of_measurement = some "°F" then format2 (ctof v)
        else format2 v
    | none => ""
  else if c.instance_name = "sensorHumidity" then
    let units :=
      (device.quirk.bind Quirk.platform_humidity_sensor_units).getD
        HumidityUnits.RelativePercent
    match ((cap.state.pointer "/value/currentHumidity").bind
        JsonValue.as_f64).map units.from_reading_to_relative_percent with
    | some v => format2 v
    | none => ""
  else cap.state.toString

/-- `CapabilitySensor::notify_state`: look the device up (panicking when
absent), scan the HTTP snapshot's capabilities for the first one matching
the instance name, publish the computed value to the state topic; when
there is no snapshot or no match, trace and return `Ok(())`. -/
def CapabilitySensor.notify_state (c : CapabilitySensor)
    (store : DeviceStore) : NotifyOutcome :=
  match store c.device_id with
  | none => NotifyOutcome.panicked
  | some device =>
    match device.http_device_state with
    | some st =>
      match st.capabilities.find? (fun cap => cap.inst == c.instance_name) with
      | some cap =>
          NotifyOutcome.published c.sensor.state_topic
            (c.computeValue device cap)
      | none => NotifyOutcome.noop
    | none => NotifyOutcome.noop

/-- Serialize an optional value as serde does for the attribute document:
`None` becomes JSON `null`. -/
def encodeOpt {α : Type} (f : α → JsonValue) : Option α → JsonValue
  | none => JsonValue.null
  | some x => f x

/-- Serialization of a capability for the attributes document. -/
def DeviceCapability.toJson (c : DeviceCapability) : JsonValue :=
  JsonValue.obj [("instance", JsonValue.str c.inst), ("state", c.state)]

/-- Serialization of the HTTP snapshot for the attributes document. -/
def HttpDeviceState.toJson (s : HttpDeviceState) : JsonValue :=
  JsonValue.obj
    [("capabilities", JsonValue.arr (s.capabilities.map DeviceCapability.toJson))]

/-- Serialization of the merged device state for the attributes
document. -/
def DeviceState.toJson (s : DeviceState) : JsonValue :=
  JsonValue.obj [("updated", JsonValue.num s.updated)]

/-- Observable outcome of `DeviceStatusDiagnostic::notify_state`: the
lookup panic, or a publish of the summary to the state topic followed by
a structured publish of the attributes document when an attributes topic
is configured. -/
inductive StatusOutcome where
  | panicked
  | published (topic summary : String) (attr : Option (String × JsonValue))
deriving Repr

/-- `DeviceStatusDiagnostic::notify_state`.  `now` is `Utc::now()` and
`pollInterval` the external `POLL_INTERVAL` configuration, both in
seconds; `threshold = pollInterval + 30` per the source. -/
def DeviceStatusDiagnostic.notify_state (d : DeviceStatusDiagnostic)
    (store : DeviceStore) (now pollInterval : ℚ) : StatusOutcome :=
  match store d.device_id with
  | none => StatusOutcome.panicked
  | some device =>
    let threshold := pollInterval + 30
    let summary :=
      match device.device_state with
      | some st => if now - st.updated > threshold then "Missing" else "Available"
      | none => "Unknown"
    let attributes := JsonValue.obj
      [("iot", device.iot_state),
       ("lan", device.lan_state),
       ("http", device.http_state),
       ("platform_metadata", device.http_device_info),
       ("platform_state", encodeOpt HttpDeviceState.toJson device.http_device_state),
       ("overall", encodeOpt DeviceState.toJson device.device_state)]
    StatusOutcome.published d.sensor.state_topic summary
      (d.sensor.json_attributes_topic.map fun t => (t, attributes))

/-!  Specification-side value functions, written from the spec's / claims'
wording, to be compared with the embedded code. -/

/-- Spec-side description of the temperature value: read the number at
JSON pointer `/value`, convert it from the reported unit to Celsius,
convert Celsius to Fahrenheit exactly when the entity's display unit is
`°F`, format with two decimals; missing or non-numeric source gives the
empty string. -/
def tempValueSpec (unit : Option String) (units : TemperatureUnits)
    (doc : JsonValue) : String :=
  match (doc.pointer "/value").bind JsonValue.as_f64 with
  | some raw =>
      let celsius := units.from_reading_to_celsius raw
      if unit = some "°F" then format2 (ctof celsius) else format2 celsius
  | none => ""

/-- Spec-side description of the humidity value: read the number at JSON
pointer `/value/currentHumidity`, convert it from the reported unit to
relative percent, format with two decimals; missing or non-numeric source
gives the empty string. -/
def humValueSpec (units : HumidityUnits) (doc : JsonValue) : String :=
  match (doc.pointer "/value/currentHumidity").bind JsonValue.as_f64 with
  | some raw => format2 (units.from_reading_to_relative_percent raw)
  | none => ""

/-- Spec-side description of the status summary: no merged state is
`Unknown`, age strictly beyond `pollInterval + 30` is `Missing`,
everything else (the boundary included) is `Available`. -/
def statusSummarySpec (now pollInterval : ℚ) (st : Option DeviceState) :
    String :=
  match st with
  | none => "Unknown"
  | some s =>
      if now - s.updated > pollInterval + 30 then "Missing" else "Available"

/-!  Concrete fixtures used by the witness theorems. -/

/-- A temperature capability reporting `21` at `value`. -/
def witnessTempCap : DeviceCapability :=
  { inst := "sensorTemperature"
    state := JsonValue.obj [("value", JsonValue.num 21)] }

/-- A humidity capability reporting `55` at `value.currentHumidity`. -/
def witnessHumCap : DeviceCapability :=
  { inst := "sensorHumidity"
    state := JsonValue.obj
      [("value", JsonValue.obj [("currentHumidity", JsonValue.num 55)])] }

/-- A concrete hygrometer device: both capabilities, no quirk, merged
state last updated at time `100`. -/
def witnessDevice : ServiceDevice :=
  { id := "dev:1"
    http_device_state := some { capabilities := [witnessTempCap, witnessHumCap] }
    quirk := none
    device_state := some { updated := 100 }
    iot_state := JsonValue.null
    lan_state := JsonValue.null
    http_state := JsonValue.null
    http_device_info := JsonValue.null }

/-- A store that resolves every id to the witness device. -/
def witnessStore : DeviceStore := fun _ => some witnessDevice

/-- A store that resolves no id at all. -/
def emptyStore : DeviceStore := fun _ => none

/-- The Celsius sensor entity for the witness device. -/
def witnessTempSensor : CapabilitySensor :=
  CapabilitySensor.new witnessDevice witnessTempCap

/-- The humidity sensor entity for the witness device. -/
def witnessHumSensor : CapabilitySensor :=
  CapabilitySensor.new witnessDevice witnessHumCap

/-- A sensor for an `online` capability the witness device does not
expose in its HTTP snapshot. -/
def witnessOnlineSensor : CapabilitySensor :=
  CapabilitySensor.new witnessDevice
    { inst := "online", state := JsonValue.bool true }

/-- C2: `into_temperature_farenheit` on a non-temperature sensor yields
no entity; on a `sensorTemperature` sensor it yields `some` entity whose
unit is `°F`, whose `unique_id` and `state_topic` end in `_F`, and whose
display name carries the `(imperial)` suffix. -/
theorem into_temperature_farenheit_gating (c : CapabilitySensor) :
    (c.instance_name ≠ "sensorTemperature" →
      c.into_temperature_farenheit = none) ∧
    (c.instance_name = "sensorTemperature" →
      ∃ c2, c.into_temperature_farenheit = some c2 ∧
        c2.sensor.unit_of_measurement = some "°F" ∧
        (∃ p, c2.sensor.base.unique_id = p ++ "_F") ∧
        (∃ p, c2.sensor.state_topic = p ++ "_F") ∧
        ∃ base, c2.sensor.base.name = some (base ++ " (imperial)")) := by
  constructor
  · intro h
    unfold CapabilitySensor.into_temperature_farenheit
    rw [if_pos h]
  · intro h
    unfold CapabilitySensor.into_temperature_farenheit
    rw [if_neg (not_not_intro h)]
    exact ⟨_, rfl, rfl, ⟨c.sensor.base.unique_id, rfl⟩,
      ⟨c.sensor.state_topic, rfl⟩, ⟨"Temperature", rfl⟩⟩

/-- C2 witness: the gating evaluated on a concrete humidity sensor (no
entity) and a concrete temperature sensor (imperial entity). -/
theorem into_temperature_farenheit_gating_witness :
    witnessHumSensor.into_temperature_farenheit = none ∧
      ∃ c2, witnessTempSensor.into_temperature_farenheit = some c2 ∧
        c2.sensor.unit_of_measurement = some "°F" ∧
        (∃ p, c2.sensor.base.unique_id = p ++ "_F") ∧
        (∃ p, c2.sensor.state_topic = p ++ "_F") ∧
        ∃ base, c2.sensor.base.name = some (base ++ " (imperial)") :=
  ⟨(into_temperature_farenheit_gating witnessHumSensor).1 (by decide),
    (into_temperature_farenheit_gating witnessTempSensor).2 rfl⟩

/-- C4: a device-store miss during `notify_state` is the
`.expect("device to exist")` panic for both the capability sensor and the
status diagnostic — not a returned error and not a no-op. -/
theorem notify_state_missing_device_panics
    (c : CapabilitySensor) (d : DeviceStatusDiagnostic)
    (store store2 : DeviceStore) (now pollInterval : ℚ)
    (hc : store c.device_id = none) (hd : store2 d.device_id = none) :
    c.notify_state store = NotifyOutcome.panicked ∧
      d.notify_state store2 now pollInterval = StatusOutcome.panicked := by
  unfold CapabilitySensor.notify_state DeviceStatusDiagnostic.notify_state
  rw [hc, hd]
  exact ⟨rfl, rfl⟩

/-- C4 witness: both entity kinds panic against the empty store. -/
theorem notify_state_missing_device_panics_witness :
    witnessTempSensor.notify_state emptyStore = NotifyOutcome.panicked ∧
      (DeviceStatusDiagnostic.new witnessDevice).notify_state emptyStore 0 0 =
        StatusOutcome.panicked :=
  notify_state_missing_device_panics _ _ _ _ 0 0 rfl rfl

/-- C5: when the device is found but has no HTTP snapshot, or no
capability in the snapshot matches the sensor's instance name, the
refresh publishes nothing and returns `Ok(())`. -/
theorem notify_state_missing_capability_noop
    (c : CapabilitySensor) (store : DeviceStore) (device : ServiceDevice)
    (hdev : store c.device_id = some device)
    (hmiss : ∀ hs, device.http_device_state = some hs →
      hs.capabilities.find? (fun cap => cap.inst == c.instance_name) = none) :
    c.notify_state store = NotifyOutcome.noop := by
  unfold CapabilitySensor.notify_state
  rw [hdev]
  dsimp only
  cases h : device.http_device_state with
  | none => rfl
  | some hs =>
      dsimp only
      rw [hmiss hs h]

/-- C5 witness: the `online` sensor against the witness device, whose
snapshot has no `online` capability. -/
theorem notify_state_missing_capability_noop_witness :
    witnessOnlineSensor.notify_state witnessStore = NotifyOutcome.noop :=
  notify_state_missing_capability_noop witnessOnlineSensor witnessStore
    witnessDevice rfl
    (fun hs h => by
      rw [show witnessDevice.http_device_state =
        some { capabilities := [witnessTempCap, witnessHumCap] } from rfl] at h
      cases h
      rfl)

/-- C7: the constructor's fixed display-name/unit table:
`sensorTemperature` is "Temperature" with `°C`, `sensorHumidity` is
"Humidity" with `%`, `online` is "Connected to Govee Cloud" with no unit,
anything else passes the raw instance name through with no unit. -/
theorem new_sensor_name_unit_table
    (device : ServiceDevice) (cap : DeviceCapability) :
    (cap.inst = "sensorTemperature" →
      (CapabilitySensor.new device cap).sensor.base.name = some "Temperature" ∧
      (CapabilitySensor.new device cap).sensor.unit_of_measurement = some "°C") ∧
    (cap.inst = "sensorHumidity" →
      (CapabilitySensor.new device cap).sensor.base.name = some "Humidity" ∧
      (CapabilitySensor.new device cap).sensor.unit_of_measurement = some "%") ∧
    (cap.inst = "online" →
      (CapabilitySensor.new device cap).sensor.base.name =
        some "Connected to Govee Cloud" ∧
      (CapabilitySensor.new device cap).sensor.unit_of_measurement = none) ∧
    (cap.inst ≠ "sensorTemperature" → cap.inst ≠ "sensorHumidity" →
      cap.inst ≠ "online" →
      (CapabilitySensor.new device cap).sensor.base.name = some cap.inst ∧
      (CapabilitySensor.new device cap).sensor.unit_of_measurement = none) := by
  refine ⟨fun h => ?_, fun h => ?_, fun h => ?_, fun h1 h2 h3 => ?_⟩ <;>
    simp [CapabilitySensor.new, *]

/-- C7 witness: the table evaluated at all four rows on concrete
capabilities. -/
theorem new_sensor_name_unit_table_witness :
    ((CapabilitySensor.new witnessDevice witnessTempCap).sensor.base.name =
        some "Temperature" ∧
      (CapabilitySensor.new witnessDevice
          witnessTempCap).sensor.unit_of_measurement = some "°C") ∧
    ((CapabilitySensor.new witnessDevice witnessHumCap).sensor.base.name =
        some "Humidity" ∧
      (CapabilitySensor.new witnessDevice
          witnessHumCap).sensor.unit_of_measurement = some "%") ∧
    ((CapabilitySensor.new witnessDevice
          { inst := "online", state := JsonValue.bool true }).sensor.base.name =
        some "Connected to Govee Cloud" ∧
      (CapabilitySensor.new witnessDevice
          { inst := "online",
            state := JsonValue.bool true }).sensor.unit_of_measurement = none) ∧
    ((CapabilitySensor.new witnessDevice
          { inst := "wifiRSSI", state := JsonValue.null }).sensor.base.name =
        some "wifiRSSI" ∧
      (CapabilitySensor.new witnessDevice
          { inst := "wifiRSSI",
            state := JsonValue.null }).sensor.unit_of_measurement = none) :=
  ⟨(new_sensor_name_unit_table witnessDevice witnessTempCap).1 rfl,
    (new_sensor_name_unit_table witnessDevice witnessHumCap).2.1 rfl,
    (new_sensor_name_unit_table witnessDevice
      { inst := "online", state := JsonValue.bool true }).2.2.1 rfl,
    (new_sensor_name_unit_table witnessDevice
      { inst := "wifiRSSI", state := JsonValue.null }).2.2.2
      (by decide) (by decide) (by decide)⟩

/-- C1: on a refresh that finds the `sensorTemperature` capability in the
HTTP snapshot, the published value is the number at JSON pointer
`/value`, converted from the quirk's reported temperature unit (Celsius
when no quirk resolves) to Celsius, then to Fahrenheit exactly when the
entity's display unit is `°F`, formatted with two decimals; a missing or
non-numeric field publishes the empty string. -/
theorem notify_state_temperature_value
    (c : CapabilitySensor) (store : DeviceStore) (device : ServiceDevice)
    (hs : HttpDeviceState) (cap : DeviceCapability)
    (hinst : c.instance_name = "sensorTemperature")
    (hdev : store c.device_id = some device)
    (hhttp : device.http_device_state = some hs)
    (hfind : hs.capabilities.find? (fun k => k.inst == c.instance_name) =
      some cap) :
    c.notify_state store =
      NotifyOutcome.published c.sensor.state_topic
        (tempValueSpec c.sensor.unit_of_measurement
          ((device.quirk.bind Quirk.platform_temperature_sensor_units).getD
            TemperatureUnits.Celsius)
          cap.state) := by
  unfold CapabilitySensor.notify_state
  rw [hdev]
  dsimp only
  rw [hhttp]
  dsimp only
  rw [hfind]
  dsimp only
  unfold CapabilitySensor.computeValue tempValueSpec
  rw [if_pos hinst]
  cases hv : (cap.state.pointer "/value").bind JsonValue.as_f64 with
  | none => simp
  | some v => simp

/-- C1 witness: the concrete end-to-end run of the spec: capability state
`\x7bvalue: 21\x7d`, no quirk, Celsius display publishes `"21.00"` to the
sensor's state topic. -/
theorem notify_state_temperature_value_witness :
    witnessTempSensor.notify_state witnessStore =
      NotifyOutcome.published
        "gv2mqtt/sensor/sensor-dev-1-sensorTemperature/state" "21.00" := by
  have h := notify_state_temperature_value witnessTempSensor witnessStore
    witnessDevice { capabilities := [witnessTempCap, witnessHumCap] }
    witnessTempCap rfl rfl rfl rfl
  rw [h]
  rw [show tempValueSpec witnessTempSensor.sensor.unit_of_measurement
      ((witnessDevice.quirk.bind Quirk.platform_temperature_sensor_units).getD
        TemperatureUnits.Celsius) witnessTempCap.state = format2 21 from rfl]
  have hneg : ¬ ((21 : ℚ) < 0) := by norm_num
  unfold format2
  rw [if_neg hneg, if_neg hneg,
    show ((21 : ℚ) * 100) = 2100 from by norm_num]
  decide

/-- C6: on a refresh that finds the `sensorHumidity` capability in the
HTTP snapshot, the published value is the number at JSON pointer
`/value/currentHumidity`, converted from the quirk's reported humidity
unit (relative-percent pass-through when no quirk resolves) to relative
percent, formatted with two decimals; a missing or non-numeric field
publishes the empty string. -/
theorem notify_state_humidity_value
    (c : CapabilitySensor) (store : DeviceStore) (device : ServiceDevice)
    (hs : HttpDeviceState) (cap : DeviceCapability)
    (hinst : c.instance_name = "sensorHumidity")
    (hdev : store c.device_id = some device)
    (hhttp : device.http_device_state = some hs)
    (hfind : hs.capabilities.find? (fun k => k.inst == c.instance_name) =
      some cap) :
    c.notify_state store =
      NotifyOutcome.published c.sensor.state_topic
        (humValueSpec
          ((device.quirk.bind Quirk.platform_humidity_sensor_units).getD
            HumidityUnits.RelativePercent)
          cap.state) := by
  unfold CapabilitySensor.notify_state
  rw [hdev]
  dsimp only
  rw [hhttp]
  dsimp only
  rw [hfind]
  dsimp only
  unfold CapabilitySensor.computeValue humValueSpec
  rw [if_neg (by rw [hinst]; decide), if_pos hinst]
  cases hv : (cap.state.pointer "/value/currentHumidity").bind
      JsonValue.as_f64 with
  | none => simp
  | some v => simp

/-- C6 witness: capability state `\x7bvalue: \x7bcurrentHumidity:
55\x7d\x7d`, no quirk, publishes `"55.00"` (default pass-through). -/
theorem notify_state_humidity_value_witness :
    witnessHumSensor.notify_state witnessStore =
      NotifyOutcome.published
        "gv2mqtt/sensor/sensor-dev-1-sensorHumidity/state" "55.00" := by
  have h := notify_state_humidity_value witnessHumSensor witnessStore
    witnessDevice { capabilities := [witnessTempCap, witnessHumCap] }
    witnessHumCap rfl rfl rfl rfl
  rw [h]
  rw [show humValueSpec
      ((witnessDevice.quirk.bind Quirk.platform_humidity_sensor_units).getD
        HumidityUnits.RelativePercent) witnessHumCap.state = format2 55
    from rfl]
  have hneg : ¬ ((55 : ℚ) < 0) := by norm_num
  unfold format2
  rw [if_neg hneg, if_neg hneg,
    show ((55 : ℚ) * 100) = 5500 from by norm_num]
  decide

/-- The summary string a status-diagnostic outcome published, when it
published one. -/
def StatusOutcome.summaryof : StatusOutcome → Option String
  | .panicked => none
  | .published _ s _ => some s

/-- C3: the status refresh publishes `Unknown` when the device has no
merged state, `Missing` when the merged state is strictly older than the
poll interval plus 30 seconds, and `Available` otherwise — an age exactly
at the threshold included. -/
theorem notify_state_status_summary
    (d : DeviceStatusDiagnostic) (store : DeviceStore)
    (device : ServiceDevice) (now pollInterval : ℚ)
    (hdev : store d.device_id = some device) :
    (d.notify_state store now pollInterval).summaryof =
      some (statusSummarySpec now pollInterval device.device_state) ∧
    (∀ s, device.device_state = some s →
      now - s.updated = pollInterval + 30 →
      statusSummarySpec now pollInterval device.device_state =
        "Available") := by
  constructor
  · unfold DeviceStatusDiagnostic.notify_state
    rw [hdev]
    dsimp only [StatusOutcome.summaryof]
    unfold statusSummarySpec
    cases device.device_state <;> rfl
  · intro s hsome heq
    rw [hsome]
    unfold statusSummarySpec
    dsimp only
    rw [heq, if_neg (lt_irrefl _)]

/-- C3 witness: with poll interval `0`, merged state updated at `100` and
`now = 130`, the age sits exactly at the threshold and the summary is
`"Available"`. -/
theorem notify_state_status_summary_witness :
    ((DeviceStatusDiagnostic.new witnessDevice).notify_state witnessStore
        130 0).summaryof = some "Available" := by
  have h := notify_state_status_summary
    (DeviceStatusDiagnostic.new witnessDevice) witnessStore witnessDevice
    130 0 rfl
  rw [h.1, h.2 { updated := 100 } rfl (by norm_num)]

/-- A second device sharing the witness device's id but nothing else, for
the determinism witness. -/
def witnessDeviceAlias : ServiceDevice :=
  { id := "dev:1"
    http_device_state := none
    quirk := some { platform_temperature_sensor_units :=
                      some TemperatureUnits.Fahrenheit
                    platform_humidity_sensor_units := none }
    device_state := none
    iot_state := JsonValue.bool true
    lan_state := JsonValue.bool false
    http_state := JsonValue.null
    http_device_info := JsonValue.str "meta" }

/-- C8: `unique_id` is a deterministic function of the identifiers alone:
equal device ids and equal instance names give equal `unique_id`s for
`CapabilitySensor::new`, equal ids give equal `unique_id`s for both the
imperial derivation of that sensor and `DeviceStatusDiagnostic::new`, and
equal names give equal `unique_id`s for `GlobalFixedDiagnostic::new`
(whatever the fixed value is). -/
theorem unique_id_deterministic
    (d1 d2 : ServiceDevice) (c1 c2 : DeviceCapability) (n1 n2 v1 v2 : String)
    (hid : d1.id = d2.id) (hinst : c1.inst = c2.inst) (hname : n1 = n2) :
    (CapabilitySensor.new d1 c1).sensor.base.unique_id =
      (CapabilitySensor.new d2 c2).sensor.base.unique_id ∧
    Option.map (fun c => c.sensor.base.unique_id)
        (CapabilitySensor.new d1 c1).into_temperature_farenheit =
      Option.map (fun c => c.sensor.base.unique_id)
        (CapabilitySensor.new d2 c2).into_temperature_farenheit ∧
    (GlobalFixedDiagnostic.new n1 v1).sensor.base.unique_id =
      (GlobalFixedDiagnostic.new n2 v2).sensor.base.unique_id ∧
    (DeviceStatusDiagnostic.new d1).sensor.base.unique_id =
      (DeviceStatusDiagnostic.new d2).sensor.base.unique_id := by
  have hcs : CapabilitySensor.new d1 c1 = CapabilitySensor.new d2 c2 := by
    unfold CapabilitySensor.new topic_safe_id
    rw [hid, hinst]
  refine ⟨by rw [hcs], by rw [hcs], ?_, ?_⟩
  · unfold GlobalFixedDiagnostic.new
    rw [hname]
  · unfold DeviceStatusDiagnostic.new topic_safe_id
    rw [hid]

/-- C8 witness: two devices that agree only on their id, and two
temperature capabilities that agree only on their instance name, produce
identical `unique_id`s across all the constructions. -/
theorem unique_id_deterministic_witness :
    (CapabilitySensor.new witnessDevice witnessTempCap).sensor.base.unique_id =
      (CapabilitySensor.new witnessDeviceAlias
        { inst := "sensorTemperature",
          state := JsonValue.null }).sensor.base.unique_id ∧
    Option.map (fun c => c.sensor.base.unique_id)
        (CapabilitySensor.new witnessDevice
          witnessTempCap).into_temperature_farenheit =
      Option.map (fun c => c.sensor.base.unique_id)
        (CapabilitySensor.new witnessDeviceAlias
          { inst := "sensorTemperature",
            state := JsonValue.null }).into_temperature_farenheit ∧
    (GlobalFixedDiagnostic.new "Version" "2024.1").sensor.base.unique_id =
      (GlobalFixedDiagnostic.new "Version" "2024.2").sensor.base.unique_id ∧
    (DeviceStatusDiagnostic.new witnessDevice).sensor.base.unique_id =
      (DeviceStatusDiagnostic.new witnessDeviceAlias).sensor.base.unique_id :=
  unique_id_deterministic witnessDevice witnessDeviceAlias witnessTempCap
    { inst := "sensorTemperature", state := JsonValue.null }
    "Version" "Version" "2024.1" "2024.2" rfl rfl rfl

/-- C9: the imperial derivation is not guarded against repeated
application: on a `sensorTemperature` sensor a second application
succeeds again and stacks the suffixes, yielding `unique_id` and
`state_topic` that end in `_F_F`. -/
theorem into_temperature_farenheit_not_idempotent (c : CapabilitySensor)
    (h : c.instance_name = "sensorTemperature") :
    ∃ c1 c2, c.into_temperature_farenheit = some c1 ∧
      c1.into_temperature_farenheit = some c2 ∧
      c2.sensor.base.unique_id = c.sensor.base.unique_id ++ "_F_F" ∧
      c2.sensor.state_topic = c.sensor.state_topic ++ "_F_F" := by
  have step : ∀ a : CapabilitySensor, a.instance_name = "sensorTemperature" →
      a.into_temperature_farenheit = some
        { a with sensor :=
            { a.sensor with
              unit_of_measurement := some "°F"
              base :=
                { a.sensor.base with
                  unique_id := a.sensor.base.unique_id ++ "_F"
                  name := some "Temperature (imperial)" }
              state_topic := a.sensor.state_topic ++ "_F" } } := by
    intro a ha
    unfold CapabilitySensor.into_temperature_farenheit
    rw [if_neg (not_not_intro ha)]
  refine ⟨_, _, step c h, step _ h, ?_, ?_⟩
  · dsimp only
    rw [String.append_assoc]
    rfl
  · dsimp only
    rw [String.append_assoc]
    rfl

/-- C9 witness: the double derivation on the concrete temperature sensor,
with its concretely stacked identifiers. -/
theorem into_temperature_farenheit_not_idempotent_witness :
    ∃ c1 c2, witnessTempSensor.into_temperature_farenheit = some c1 ∧
      c1.into_temperature_farenheit = some c2 ∧
      c2.sensor.base.unique_id =
        witnessTempSensor.sensor.base.unique_id ++ "_F_F" ∧
      c2.sensor.state_topic =
        witnessTempSensor.sensor.state_topic ++ "_F_F" :=
  into_temperature_farenheit_not_idempotent witnessTempSensor rfl

/-- C10: every constructed entity satisfies
`state_topic = "gv2mqtt/sensor/" ++ unique_id ++ "/state"`, and the
imperial derivation breaks the relation: it appends `_F` after the
`/state` suffix while appending `_F` to `unique_id`, so the derived
entity's topic no longer matches its `unique_id`. -/
theorem state_topic_unique_id_relation :
    (∀ n v, (GlobalFixedDiagnostic.new n v).sensor.state_topic =
      "gv2mqtt/sensor/" ++
        (GlobalFixedDiagnostic.new n v).sensor.base.unique_id ++ "/state") ∧
    (∀ device cap, (CapabilitySensor.new device cap).sensor.state_topic =
      "gv2mqtt/sensor/" ++
        (CapabilitySensor.new device cap).sensor.base.unique_id ++ "/state") ∧
    (∀ device, (DeviceStatusDiagnostic.new device).sensor.state_topic =
      "gv2mqtt/sensor/" ++
        (DeviceStatusDiagnostic.new device).sensor.base.unique_id ++
          "/state") ∧
    (∀ c c2 : CapabilitySensor, c.into_temperature_farenheit = some c2 →
      c.sensor.state_topic =
        "gv2mqtt/sensor/" ++ c.sensor.base.unique_id ++ "/state" →
      c2.sensor.state_topic =
        ("gv2mqtt/sensor/" ++ c.sensor.base.unique_id ++ "/state") ++ "_F" ∧
      c2.sensor.base.unique_id = c.sensor.base.unique_id ++ "_F" ∧
      c2.sensor.state_topic ≠
        "gv2mqtt/sensor/" ++ c2.sensor.base.unique_id ++ "/state") := by
  refine ⟨fun n v => rfl, fun device cap => rfl, fun device => rfl,
    fun c c2 hsome htopic => ?_⟩
  by_cases hi : c.instance_name = "sensorTemperature"
  · unfold CapabilitySensor.into_temperature_farenheit at hsome
    rw [if_neg (not_not_intro hi)] at hsome
    have hc2 := (Option.some.inj hsome).symm
    subst hc2
    refine ⟨by rw [htopic], rfl, ?_⟩
    dsimp only
    rw [htopic]
    intro heq
    have hdata := congrArg String.data heq
    simp only [String.data_append, List.append_assoc] at hdata
    have h1 := List.append_cancel_left hdata
    have h2 := List.append_cancel_left h1
    exact absurd h2 (by decide)
  · unfold CapabilitySensor.into_temperature_farenheit at hsome
    rw [if_pos hi] at hsome
    exact absurd hsome (by simp)

/-- C10 witness: the relation evaluated on the three concrete
constructors and its concrete breakage on the imperial temperature
sensor. -/
theorem state_topic_unique_id_relation_witness :
    ((GlobalFixedDiagnostic.new "Version" "1").sensor.state_topic =
      "gv2mqtt/sensor/" ++
        (GlobalFixedDiagnostic.new "Version" "1").sensor.base.unique_id ++
          "/state") ∧
    (witnessTempSensor.sensor.state_topic =
      "gv2mqtt/sensor/" ++ witnessTempSensor.sensor.base.unique_id ++
        "/state") ∧
    ∃ c2, witnessTempSensor.into_temperature_farenheit = some c2 ∧
      c2.sensor.state_topic ≠
        "gv2mqtt/sensor/" ++ c2.sensor.base.unique_id ++ "/state" := by
  refine ⟨state_topic_unique_id_relation.1 "Version" "1",
    state_topic_unique_id_relation.2.1 witnessDevice witnessTempCap, ?_⟩
  have h := state_topic_unique_id_relation.2.2.2 witnessTempSensor
  cases hsome : witnessTempSensor.into_temperature_farenheit with
  | none => exact absurd hsome (by decide)
  | some c2 =>
      exact ⟨c2, rfl,
        (h c2 hsome
          (state_topic_unique_id_relation.2.1 witnessDevice
            witnessTempCap)).2.2⟩
